import Mathlib

/-!
Shallow embedding of the `llm-code-deployment` service (files `main.py`,
`helpers.py`, `llm_utils.py`, `github_utils.py`, `database.py`) and proofs
about its behaviour.  Machine integers are modelled as `Nat` reduced
modulo `2 ^ 32` where the underlying operations are 32-bit; fallible
Python code is modelled with `Except String`; external effects (the LLM
endpoint, the GitHub API, git subprocesses, HTTP POSTs) are modelled as
explicit oracle parameters describing the outcome of each call.
-/

namespace LlmDeploy

/-! ## 32-bit word arithmetic (for `hashlib.sha256`) -/

/-- Truncate to a 32-bit word. -/
def w32 (n : Nat) : Nat := n % 4294967296

/-- 32-bit right rotation. -/
def rotr (k x : Nat) : Nat := w32 ((x >>> k) ||| (x <<< (32 - k)))

/-- 32-bit bitwise complement. -/
def compl32 (x : Nat) : Nat := 4294967295 - (w32 x)

def ch32 (x y z : Nat) : Nat := (x &&& y) ^^^ ((compl32 x) &&& z)

def maj32 (x y z : Nat) : Nat := (x &&& y) ^^^ (x &&& z) ^^^ (y &&& z)

def bigSigma0 (x : Nat) : Nat := (rotr 2 x) ^^^ (rotr 13 x) ^^^ (rotr 22 x)

def bigSigma1 (x : Nat) : Nat := (rotr 6 x) ^^^ (rotr 11 x) ^^^ (rotr 25 x)

def smallSigma0 (x : Nat) : Nat := (rotr 7 x) ^^^ (rotr 18 x) ^^^ (x >>> 3)

def smallSigma1 (x : Nat) : Nat := (rotr 17 x) ^^^ (rotr 19 x) ^^^ (x >>> 10)

/-! ## SHA-256 (the digest used by `helpers.hash_secret`) -/

/-- The 64 SHA-256 round constants (FIPS 180-4, written in decimal). -/
def shaK : List Nat :=
  [1116352408, 1899447441, 3049323471, 3921009573, 961987163, 1508970993,
   2453635748, 2870763221, 3624381080, 310598401, 607225278, 1426881987,
   1925078388, 2162078206, 2614888103, 3248222580, 3835390401, 4022224774,
   264347078, 604807628, 770255983, 1249150122, 1555081692, 1996064986,
   2554220882, 2821834349, 2952996808, 3210313671, 3336571891, 3584528711,
   113926993, 338241895, 666307205, 773529912, 1294757372, 1396182291,
   1695183700, 1986661051, 2177026350, 2456956037, 2730485921, 2820302411,
   3259730800, 3345764771, 3516065817, 3600352804, 4094571909, 275423344,
   430227734, 506948616, 659060556, 883997877, 958139571, 1322822218,
   1537002063, 1747873779, 1955562222, 2024104815, 2227730452, 2361852424,
   2428436474, 2756734187, 3204031479, 3329325298]

/-- SHA-256 working state: eight 32-bit words. -/
structure Sha256State where
  a : Nat
  b : Nat
  c : Nat
  d : Nat
  e : Nat
  f : Nat
  g : Nat
  h : Nat
  deriving Repr, DecidableEq

/-- The SHA-256 initial hash value (FIPS 180-4, written in decimal). -/
def shaInit : Sha256State :=
  ⟨1779033703, 3144134277, 1013904242, 2773480762,
   1359893119, 2600822924, 528734635, 1541459225⟩

/-- One SHA-256 compression round; `kw` is `K[i] + W[i]` pre-added. -/
def shaRound (s : Sha256State) (kw : Nat) : Sha256State :=
  let t1 := w32 (s.h + bigSigma1 s.e + ch32 s.e s.f s.g + kw)
  let t2 := w32 (bigSigma0 s.a + maj32 s.a s.b s.c)
  ⟨w32 (t1 + t2), s.a, s.b, s.c, w32 (s.d + t1), s.e, s.f, s.g⟩

/-- Pack a byte list into big-endian 32-bit words (16 per block). -/
def words16 : List Nat → List Nat
  | b0 :: b1 :: b2 :: b3 :: rest => (((b0 * 256 + b1) * 256 + b2) * 256 + b3) :: words16 rest
  | _ => []

/-- The next word of the SHA-256 message schedule, from the words so far. -/
def nextScheduleWord (ws : List Nat) : Nat :=
  let n := ws.length
  w32 (smallSigma1 (ws.getD (n - 2) 0) + ws.getD (n - 7) 0 +
       smallSigma0 (ws.getD (n - 15) 0) + ws.getD (n - 16) 0)

/-- Extend the message schedule by `fuel` further words. -/
def extendSchedule : Nat → List Nat → List Nat
  | 0, ws => ws
  | fuel + 1, ws => extendSchedule fuel (ws ++ [nextScheduleWord ws])

/-- Compress one 64-byte block into the running hash state. -/
def shaCompress (s : Sha256State) (block : List Nat) : Sha256State :=
  let ws := extendSchedule 48 (words16 block)
  let t := (shaK.zip ws).foldl (fun st kw => shaRound st (w32 (kw.1 + kw.2))) s
  ⟨w32 (s.a + t.a), w32 (s.b + t.b), w32 (s.c + t.c), w32 (s.d + t.d),
   w32 (s.e + t.e), w32 (s.f + t.f), w32 (s.g + t.g), w32 (s.h + t.h)⟩

/-- Fold the compression function over consecutive 64-byte blocks
(fuel-indexed structural recursion; `fuel` bounds the block count). -/
def shaBlocks : Nat → Sha256State → List Nat → Sha256State
  | 0, s, _ => s
  | _ + 1, s, [] => s
  | fuel + 1, s, bytes => shaBlocks fuel (shaCompress s (bytes.take 64)) (bytes.drop 64)

/-- Big-endian byte expansion of `n` into `k` bytes. -/
def beBytes (k n : Nat) : List Nat :=
  (List.range k).map (fun i => (n >>> (8 * (k - 1 - i))) &&& 255)

/-- SHA-256 message padding: `0x80`, zeros to 56 mod 64, then the
64-bit big-endian bit length. -/
def shaPad (msg : List Nat) : List Nat :=
  let zeros := (120 - ((msg.length + 1) % 64)) % 64
  msg ++ [0x80] ++ List.replicate zeros 0 ++ beBytes 8 (8 * msg.length)

/-- Lower-case hex digit for a nibble. -/
def hexDigit (n : Nat) : Char :=
  if n < 10 then Char.ofNat (48 + n) else Char.ofNat (87 + n)

/-- Eight lower-case hex digits of a 32-bit word. -/
def hexWord (n : Nat) : List Char :=
  (List.range 8).map (fun i => hexDigit ((n >>> (4 * (7 - i))) &&& 15))

/-- The UTF-8 encoding of one character (Python `str.encode()`). -/
def utf8Char (c : Char) : List Nat :=
  let n := c.toNat
  if n < 0x80 then [n]
  else if n < 0x800 then [0xC0 ||| (n >>> 6), 0x80 ||| (n &&& 0x3F)]
  else if n < 0x10000 then
    [0xE0 ||| (n >>> 12), 0x80 ||| ((n >>> 6) &&& 0x3F), 0x80 ||| (n &&& 0x3F)]
  else
    [0xF0 ||| (n >>> 18), 0x80 ||| ((n >>> 12) &&& 0x3F),
     0x80 ||| ((n >>> 6) &&& 0x3F), 0x80 ||| (n &&& 0x3F)]

/-- UTF-8 bytes of a string. -/
def utf8Bytes (s : String) : List Nat := s.data.flatMap utf8Char

/-- SHA-256 of a byte list, as a lower-case hex string. -/
def sha256Hex (msg : List Nat) : String :=
  let padded := shaPad msg
  let final := shaBlocks (padded.length / 64) shaInit padded
  String.mk (hexWord final.a ++ hexWord final.b ++ hexWord final.c ++ hexWord final.d ++
             hexWord final.e ++ hexWord final.f ++ hexWord final.g ++ hexWord final.h)

/-- Embedding of `helpers.hash_secret`: the SHA-256 hex digest of the
UTF-8 encoding of the secret. -/
def hash_secret (s : String) : String := sha256Hex (utf8Bytes s)

/-! ## Python string primitives

Character-list models of the Python string operations the sources use:
`str.strip()`, `str.strip(chars)`, `str.startswith`, `in` (substring
containment), `str.replace(old, new, 1)`, `"\n".join`, and splitting on a
separator character (used to state the line structure of joined output). -/

/-- Python whitespace (`str.strip()` with no argument). -/
def isPyWs (c : Char) : Bool :=
  c == ' ' || c == '\t' || c == '\n' || c == '\r' || c == Char.ofNat 11 || c == Char.ofNat 12

/-- Strip characters satisfying `p` from both ends (left first). -/
def stripBoth (p : Char → Bool) (l : List Char) : List Char :=
  ((List.dropWhile p ((List.dropWhile p l).reverse)).reverse)

/-- Python `str.strip()` on a character list. -/
def pyStrip (l : List Char) : List Char := stripBoth isPyWs l

/-- Does the list start with the given pattern? -/
def startsWithL : List Char → List Char → Bool
  | [], _ => true
  | _ :: _, [] => false
  | p :: ps, c :: cs => p == c && startsWithL ps cs

/-- Python `pat in s` (substring containment). -/
def containsSub (pat : List Char) : List Char → Bool
  | [] => startsWithL pat []
  | c :: cs => startsWithL pat (c :: cs) || containsSub pat cs

/-- Python `s.replace(pat, rep, 1)`: replace the first occurrence only
(for non-empty `pat`). -/
def replaceFirstL (pat rep : List Char) : List Char → List Char
  | [] => []
  | c :: cs =>
    if startsWithL pat (c :: cs) then rep ++ (c :: cs).drop pat.length
    else c :: replaceFirstL pat rep cs

/-- Python `sep.join(parts)` for a one-character separator. -/
def joinSep (sep : Char) : List (List Char) → List Char
  | [] => []
  | [l] => l
  | l :: ls => l ++ sep :: joinSep sep ls

/-- Split a character list on a separator character; inverse of `joinSep`
on separator-free parts.  Used to state line structure of joined output. -/
def splitSep (sep : Char) : List Char → List (List Char)
  | [] => [[]]
  | c :: cs =>
    match splitSep sep cs with
    | [] => [[]]
    | r :: rs => if c == sep then [] :: r :: rs else (c :: r) :: rs

/-! ## `llm_utils.summarize_attachments` -/

/-- An attachment descriptor: the Python dict with optional keys
`url` and `name` read by `summarize_attachments` via `.get`. -/
structure Attachment where
  url : Option String
  name : Option String
  deriving DecidableEq, Repr

/-- Python `a.get("url", "")`. -/
def urlOf (a : Attachment) : String := a.url.getD ""

/-- Python `a.get("name", "unknown")`. -/
def nameOf (a : Attachment) : String := a.name.getD "unknown"

/-- The literal text placed before and after the attachment name on each
summary line, chosen by substring-classifying the url hint
(`llm_utils.py` lines 20-32). -/
def lineParts (a : Attachment) : List Char × List Char :=
  let url := (urlOf a).data
  if containsSub "image".data url then
    ("- Image file: ".data, " (type: image, to be displayed or used for demo)".data)
  else if containsSub "text/csv".data url then
    ("- CSV file: ".data, " (data file to read or process)".data)
  else if containsSub "text/markdown".data url then
    ("- Markdown file: ".data, " (text content to render)".data)
  else if containsSub "application/json".data url then
    ("- JSON file: ".data, " (data config or conversion rates)".data)
  else
    ("- File: ".data, " (type inferred from brief)".data)

/-- One summary line for one attachment (the f-string bodies of
`llm_utils.py` lines 24-32). -/
def attachmentLine (a : Attachment) : List Char :=
  (lineParts a).1 ++ (nameOf a).data ++ (lineParts a).2

/-- Embedding of `llm_utils.summarize_attachments`: a fixed sentence for
an empty list, otherwise the newline-join of one line per attachment. -/
def summarize_attachments (attachments : List Attachment) : String :=
  if attachments.isEmpty then "No attachments were provided."
  else String.mk (joinSep '\n' (attachments.map attachmentLine))

/-! ## `llm_utils.generate_files_from_brief` -/

/-- Backtick character (avoiding a literal backtick in code). -/
def bq : Char := Char.ofNat 96

/-- Sanitization applied to the LLM response (`llm_utils.py` lines
86-90): Python `content.strip()`, then if the result starts with a
fence marker, `strip` backticks from both ends, remove the first
occurrence of the substring `html`, and `strip()` again. -/
def sanitizeL (raw : List Char) : List Char :=
  let t := pyStrip raw
  if startsWithL "```".data t then
    pyStrip (replaceFirstL "html".data [] (stripBoth (fun c => c == bq) t))
  else t

/-- String-level wrapper for the response sanitization. -/
def sanitize_llm_output (raw : String) : String := String.mk (sanitizeL raw.data)

/-- Embedding of `llm_utils.generate_files_from_brief`.  The opaque LLM
capability is the oracle `cap`: `.error e` models the client or the
chat-completion call raising, `.ok content` models the returned message
content.  `apiKey` models whether `AIPIPE_TOKEN`/`OPENAI_API_KEY` is set
(`get_llm_client` raises when not).  Returns the produced file mapping
as an insertion-ordered association list. -/
def generate_files_from_brief (apiKey : Bool) (cap : Except String String)
    (brief : String) (attachments : List Attachment) :
    Except String (List (String × String)) :=
  if !apiKey then .error "AIPIPE_TOKEN or OPENAI_API_KEY not set"
  else
    match cap with
    | .error e => .error e
    | .ok content =>
      let html_code := sanitize_llm_output content
      .ok [("index.html", html_code),
           ("README.md",
            "# Auto-generated App\n\n**Brief:** " ++ brief ++ "\n\nAttachments:\n" ++
            summarize_attachments attachments ++
            "\n\nGenerated automatically for IITM LLM Code Deployment."),
           ("LICENSE", "MIT License\n\nCopyright (c) 2025")]

/-! ## Request and task data (`main.py` `TaskRequest` / `req.dict()`) -/

/-- The inbound request body / the dict handed to the background task.
Optional JSON fields are `Option`; `evaluation_url` defaults to `None`
and `attachments` to `[]` in the Pydantic model. -/
structure TaskData where
  email : String
  secret : String
  task : String
  round : Int
  nonce : String
  brief : String
  checks : List String
  evaluation_url : Option String
  attachments : List Attachment
  deriving Repr

/-- A row of the `tasks` table as written by `receive_task`
(`id`/`created_at` are database-generated and omitted). -/
structure TaskRow where
  email : String
  task : String
  round : Int
  nonce : String
  secret_hash : String
  brief : String
  evaluation_url : Option String
  status : String
  deriving Repr

/-- The synchronous HTTP outcome of `receive_task`: the acceptance JSON
or a raised `HTTPException` with its status code and detail. -/
inductive HttpResponse where
  | accepted (task : String) (round : Int) (nonce : String)
  | httpError (code : Nat) (detail : String)
  deriving DecidableEq, Repr

/-- Python truthiness of the `STORED_SECRET_HASH` environment value:
falsy when unset or the empty string. -/
def pyTruthy (o : Option String) : Bool :=
  match o with
  | none => false
  | some s => !(s == "")

/-- Embedding of `main.receive_task` (`main.py` lines 61-78): reject with
500 when no secret digest is configured, with 403 when the digest of the
supplied secret differs, otherwise insert a `received` row and return the
acceptance response.  The state is the list of task rows; the background
task scheduled on acceptance is modelled separately by `process_task`. -/
def receive_task (stored : Option String) (req : TaskData) (db : List TaskRow) :
    HttpResponse × List TaskRow :=
  if !(pyTruthy stored) then (.httpError 500 "Server secret not configured", db)
  else if !(hash_secret req.secret == stored.getD "") then
    (.httpError 403 "Invalid secret", db)
  else
    (.accepted req.task req.round req.nonce,
     db ++ [⟨req.email, req.task, req.round, req.nonce, stored.getD "",
             req.brief, req.evaluation_url, "received"⟩])

/-! ## Callback delivery (`main.post_to_evaluation_url`,
`github_utils.py` lines 142-161) -/

/-- The JSON payload POSTed to the evaluation URL.  The repository
fields are `Option` because `process_task` forwards whatever
`create_and_push_repo` returned, which can be Python `None`. -/
structure Payload where
  email : String
  task : String
  round : Int
  nonce : String
  repo_url : Option String
  commit_sha : Option String
  pages_url : Option String
  deriving DecidableEq, Repr

/-- Outcome of one `requests.post` attempt against the evaluation
server: a response with a status code, or a raised transport exception. -/
inductive PostOutcome where
  | ok (status : Nat)
  | exc (msg : String)
  deriving DecidableEq, Repr

/-- Did the attempt observe a 200 response? -/
def isOk200 : PostOutcome → Bool
  | .ok s => s == 200
  | .exc _ => false

/-- The shared retry loop shape `for delay in [1, 2, 4, 8]: try post;
stop on 200; sleep delay` of `main.py` lines 149-158 and
`github_utils.py` lines 153-161.  `target n` is the outcome of the
`n`-th attempt.  Returns (number of attempts made, delays actually
slept, payload deliveries that reached the server — one per attempt
that got any response).  Exceptions from an attempt are caught inside
the loop, so the function is total for every target. -/
def callbackLoop (target : Nat → PostOutcome) (payload : Payload) :
    Nat → List Nat → Nat × List Nat × List Payload
  | _, [] => (0, [], [])
  | n, d :: ds =>
    match target n with
    | .ok s =>
      if s == 200 then (1, [], [payload])
      else
        let r := callbackLoop target payload (n + 1) ds
        (r.1 + 1, d :: r.2.1, payload :: r.2.2)
    | .exc _ =>
      let r := callbackLoop target payload (n + 1) ds
      (r.1 + 1, d :: r.2.1, r.2.2)

/-- Embedding of `main.post_to_evaluation_url` (`main.py` lines
133-159): skip entirely when `data` carries no evaluation URL,
otherwise run the bounded retry loop over delays `[1, 2, 4, 8]`. -/
def post_to_evaluation_url (target : Nat → PostOutcome) (data : TaskData)
    (repo_url commit_sha pages_url : Option String) : Nat × List Nat × List Payload :=
  match data.evaluation_url with
  | none => (0, [], [])
  | some _ =>
    callbackLoop target
      ⟨data.email, data.task, data.round, data.nonce, repo_url, commit_sha, pages_url⟩
      0 [1, 2, 4, 8]

/-! ## `github_utils.create_and_push_repo` -/

/-- Outcome of the `user.create_repo` call: created; 422 name-exists
(with whether the follow-up `get_repo` fetch succeeds); or any other
`GithubException`. -/
inductive RepoCreateOutcome where
  | created
  | alreadyExists (fetchOk : Bool)
  | otherError (msg : String)
  deriving Repr

/-- Oracles describing the GitHub-side environment and external calls:
whether `GITHUB_TOKEN` is set, the authenticated login, the repo
creation outcome, whether the git subprocess chain (init/add/commit/
push/rev-parse) succeeds, the commit id it reports, and the evaluation
server's behaviour for the in-publisher callback loop. -/
structure GitHubEnv where
  tokenPresent : Bool
  login : String
  createRepo : RepoCreateOutcome
  gitOk : Bool
  commitSha : String
  target : Nat → PostOutcome

/-- The evaluation metadata dict passed to `create_and_push_repo` by
`process_task` (`main.py` lines 102-108). -/
structure EvalData where
  email : String
  task : String
  round : Int
  nonce : String
  evaluation_url : Option String
  deriving Repr

/-- The fixed GitHub Actions workflow definition injected into every
pushed repository (`github_utils.py` lines 60-93). -/
def workflow_content : String :=
  "name: Deploy Pages\n\non:\n  push:\n    branches: [ main ]\n\npermissions:\n  contents: read\n  pages: write\n  id-token: write\n\nconcurrency:\n  group: \"pages\"\n  cancel-in-progress: true\n\njobs:\n  deploy:\n    environment:\n      name: github-pages\n      url: $\x7b\x7b steps.deployment.outputs.page_url \x7d\x7d\n    runs-on: ubuntu-latest\n    steps:\n      - name: Checkout\n        uses: actions/checkout@v4\n      - name: Setup Pages\n        uses: actions/configure-pages@v4\n      - name: Upload artifact\n        uses: actions/upload-pages-artifact@v3\n        with:\n          path: .\n      - name: Deploy to GitHub Pages\n        id: deployment\n        uses: actions/deploy-pages@v4\n"

/-- Python dict assignment `files[k] = v` on an insertion-ordered
association list: overwrite in place or append. -/
def upsert (k v : String) (files : List (String × String)) : List (String × String) :=
  if files.any (fun p => p.1 == k) then
    files.map (fun p => if p.1 == k then (k, v) else p)
  else files ++ [(k, v)]

/-- Lookup in a file mapping. -/
def lookupFile (k : String) (files : List (String × String)) : Option String :=
  (files.find? (fun p => p.1 == k)).map (fun p => p.2)

/-- The observable outcome of `create_and_push_repo`: the returned
`(repo_url, commit_sha, pages_url)` triple (each `none` models Python
`None` or the empty fallback), the callback deliveries made by the
in-publisher notification loop, and the content force-pushed to the
remote repository (`none` when nothing was pushed). -/
structure PublishOutcome where
  result : Option String × Option String × Option String
  innerPosts : List Payload
  pushedFiles : Option (List (String × String))

/-- Embedding of `github_utils.create_and_push_repo`.  Raises (models
`RuntimeError`) only when the token is absent.  A non-422 creation
error, a failed fetch of an existing repo, or a git subprocess failure
each return the `(None, None, None)` triple without raising and skip
the notification loop.  On a successful push the Pages pre-enable step
(lines 42-57) only logs and never alters the result, the workflow file
is injected, the hosting URL is constructed deterministically, and the
evaluation server is notified with the bounded retry loop when
evaluation data with a URL is present (attempts against a missing URL
all raise and deliver nothing). -/
def create_and_push_repo (env : GitHubEnv) (repo_name : String)
    (files : List (String × String)) (evaluation_data : Option EvalData) :
    Except String PublishOutcome :=
  if !env.tokenPresent then .error "GITHUB_TOKEN not set"
  else
    match env.createRepo with
    | .otherError _ => .ok ⟨(none, none, none), [], none⟩
    | .alreadyExists false => .ok ⟨(none, none, none), [], none⟩
    | _ =>
      let files2 := upsert ".github/workflows/pages.yml" workflow_content files
      if !env.gitOk then .ok ⟨(none, none, none), [], none⟩
      else
        let repo_url := "https://github.com/" ++ env.login ++ "/" ++ repo_name
        let pages_url := "https://" ++ env.login ++ ".github.io/" ++ repo_name ++ "/"
        let posts :=
          match evaluation_data with
          | none => []
          | some ed =>
            match ed.evaluation_url with
            | none => []
            | some _ =>
              (callbackLoop env.target
                ⟨ed.email, ed.task, ed.round, ed.nonce,
                 some repo_url, some env.commitSha, some pages_url⟩
                0 [1, 2, 4, 8]).2.2
        .ok ⟨(some repo_url, some env.commitSha, some pages_url), posts, some files2⟩

/-! ## `main.process_task` -/

/-- The MIT license text attached by `main.get_mit_license_text`. -/
def get_mit_license_text : String :=
  "MIT License\n\nCopyright (c) 2025\n\nPermission is hereby granted, free of charge, to any person obtaining a copy\nof this software and associated documentation files (the \"Software\"), to deal\nin the Software without restriction, including without limitation the rights\nto use, copy, modify, merge, publish, distribute, sublicense, and/or sell\ncopies of the Software, and to permit persons to whom the Software is\nfurnished to do so, subject to the following conditions:\n\nTHE SOFTWARE IS PROVIDED \"AS IS\", WITHOUT WARRANTY OF ANY KIND, EXPRESS OR\nIMPLIED, INCLUDING BUT NOT LIMITED TO THE WARRANTIES OF MERCHANTABILITY,\nFITNESS FOR A PARTICULAR PURPOSE AND NONINFRINGEMENT.\n"

/-- Repository name derivation (`main.py` lines 85-86): the task name,
a dash, and the first 8 characters of the nonce with dashes removed. -/
def strippedNonce (nonce : String) : List Char :=
  nonce.data.filter (fun c => !(c == '-'))

/-- The first 8 characters of the dash-stripped nonce. -/
def short8 (nonce : String) : List Char := (strippedNonce nonce).take 8

/-- The derived repository name. -/
def deriveRepoName (task nonce : String) : String :=
  task ++ "-" ++ String.mk (short8 nonce)

/-- Whole-environment oracle for one background task run. -/
structure Env where
  apiKeyPresent : Bool
  llm : Except String String
  gh : GitHubEnv

/-- The observable outcome of one `process_task` run: the status string
written to the task row keyed by the nonce, the files pushed to the
created repository (`none` when no push happened), and all callback
payload deliveries (publisher loop then notifier loop). -/
structure ProcessResult where
  statusWritten : String
  nonce : String
  repoPushed : Option (List (String × String))
  posts : List Payload

/-- The formal-parameter names of `llm_utils.generate_files_from_brief`
(`llm_utils.py` line 36). -/
def generate_files_params : List String := ["brief", "attachments"]

/-- The keyword-argument names used at the call site in
`main.process_task` (`main.py` lines 91-97). -/
def process_task_call_kwargs : List String :=
  ["brief", "attachments", "round_number", "user", "repo_name"]

/-- The keyword arguments of the call that match no formal parameter.
Python raises `TypeError` when this list is non-empty. -/
def unexpectedKwargs : List String :=
  process_task_call_kwargs.filter (fun k => !(generate_files_params.contains k))

/-- Python call semantics of `process_task`'s invocation of
`generate_files_from_brief`: a `TypeError` is raised for an unexpected
keyword argument before the callee body runs; otherwise the callee runs
on the brief and attachments. -/
def call_generate_files (apiKey : Bool) (cap : Except String String)
    (brief : String) (attachments : List Attachment) :
    Except String (List (String × String)) :=
  match unexpectedKwargs with
  | [] => generate_files_from_brief apiKey cap brief attachments
  | k :: _ =>
    .error ("generate_files_from_brief() got an unexpected keyword argument \x27" ++ k ++ "\x27")

/-- The publish-and-notify tail of `main.process_task` (`main.py` lines
100-130): push the generated files, run the notifier loop on whatever
triple came back, mark the row `completed: …`; any exception raised in
this region is caught and recorded as `failed: …`. -/
def publish_and_notify (env : Env) (data : TaskData)
    (files : List (String × String)) : ProcessResult :=
  let repo_name := deriveRepoName data.task data.nonce
  match create_and_push_repo env.gh repo_name files
      (some ⟨data.email, data.task, data.round, data.nonce, data.evaluation_url⟩) with
  | .error e => ⟨"failed: " ++ e, data.nonce, none, []⟩
  | .ok pub =>
    let outer := post_to_evaluation_url env.gh.target data
      pub.result.1 pub.result.2.1 pub.result.2.2
    ⟨"completed: " ++ data.task ++ " round " ++ toString data.round,
     data.nonce, pub.pushedFiles, pub.innerPosts ++ outer.2.2⟩

/-- Embedding of `main.process_task` (`main.py` lines 81-130): generate
the files (via the Python call semantics of lines 91-97), attach the
license, then publish and notify; any exception is caught and the row
for the nonce is set to `failed: …`. -/
def process_task (env : Env) (data : TaskData) : ProcessResult :=
  match call_generate_files env.apiKeyPresent env.llm data.brief data.attachments with
  | .error e => ⟨"failed: " ++ e, data.nonce, none, []⟩
  | .ok files => publish_and_notify env data (upsert "LICENSE" get_mit_license_text files)

/-! ## Sanity anchors for the digest embedding -/

/-- SHA-256 known-answer test: the digest of `abc`. -/
theorem hash_secret_abc :
    hash_secret "abc" = "ba7816bf8f01cfea414140de5dae2223b00361a396177a9cb410ff61f20015ad" := by
  decide

/-! ## Claim theorems -/

/-- C1: the spec claims that an accepted round-1 request with a working
LLM capability eventually completes with a repository named from the
task and nonce.  In the code, `process_task` passes the keyword
arguments `round_number`, `user` and `repo_name` to
`generate_files_from_brief`, whose signature accepts only `brief` and
`attachments`; Python therefore raises `TypeError` on every run before
the LLM is even consulted, the row is set to a `failed:` status, no
repository is created, and no callback is delivered — for every
environment, however well-behaved. -/
theorem C1_process_task_always_typeerror :
    ∀ (env : Env) (data : TaskData),
      process_task env data =
        ⟨"failed: generate_files_from_brief() got an unexpected keyword argument \x27round_number\x27",
         data.nonce, none, []⟩ := by
  intro env data
  rfl

/-- C5: secret verification accepts a secret S iff the SHA-256 hex
digest of S equals the configured digest; a mismatch is rejected with
the 403 invalid-secret error; an unconfigured (absent or empty) digest
rejects every request with the 500 server-configuration error, which is
distinct from the 403 error. -/
theorem C5_secret_verification :
    (∀ (h : String) (req : TaskData) (db : List TaskRow), h ≠ "" →
       (((receive_task (some h) req db).1 = .accepted req.task req.round req.nonce) ↔
         hash_secret req.secret = h))
    ∧ (∀ (h : String) (req : TaskData) (db : List TaskRow), h ≠ "" →
        hash_secret req.secret ≠ h →
        (receive_task (some h) req db).1 = .httpError 403 "Invalid secret")
    ∧ (∀ (req : TaskData) (db : List TaskRow),
        (receive_task none req db).1 = .httpError 500 "Server secret not configured"
        ∧ (receive_task (some "") req db).1 = .httpError 500 "Server secret not configured")
    ∧ HttpResponse.httpError 500 "Server secret not configured" ≠
        HttpResponse.httpError 403 "Invalid secret" := by
  refine ⟨?_, ?_, ?_, by decide⟩
  · intro h req db hne
    by_cases hh : hash_secret req.secret = h
    · simp [receive_task, pyTruthy, hne, hh]
    · simp [receive_task, pyTruthy, hne, hh]
  · intro h req db hne hmiss
    simp [receive_task, pyTruthy, hne, hmiss]
  · intro req db
    constructor <;> rfl

/-- Witness for C5 at concrete inputs. -/
theorem C5_secret_verification_witness :
    (((receive_task (some "00") ⟨"e", "a", "t", 1, "n", "b", [], none, []⟩ []).1 =
        .accepted "t" 1 "n") ↔ hash_secret "a" = "00")
    ∧ (receive_task (some "zz") ⟨"e", "a", "t", 1, "n", "b", [], none, []⟩ []).1 =
        .httpError 403 "Invalid secret"
    ∧ (receive_task none ⟨"e", "a", "t", 1, "n", "b", [], none, []⟩ []).1 =
        .httpError 500 "Server secret not configured" :=
  ⟨C5_secret_verification.1 "00" ⟨"e", "a", "t", 1, "n", "b", [], none, []⟩ [] (by decide),
   C5_secret_verification.2.1 "zz" ⟨"e", "a", "t", 1, "n", "b", [], none, []⟩ [] (by decide)
     (by decide),
   (C5_secret_verification.2.2.1 ⟨"e", "a", "t", 1, "n", "b", [], none, []⟩ []).1⟩

/-- C6: a POST whose secret digest mismatches the configured digest is
answered with HTTP 403 and the task store is returned unchanged — no
row is inserted. -/
theorem C6_wrong_secret_rejected_no_insert :
    ∀ (h : String) (req : TaskData) (db : List TaskRow), h ≠ "" →
      hash_secret req.secret ≠ h →
      receive_task (some h) req db = (.httpError 403 "Invalid secret", db) := by
  intro h req db hne hmiss
  simp [receive_task, pyTruthy, hne, hmiss]

/-- Witness for C6 at a concrete secret and store. -/
theorem C6_wrong_secret_rejected_no_insert_witness :
    receive_task (some "zz") ⟨"e", "a", "t", 1, "n", "b", [], none, []⟩ [] =
      (.httpError 403 "Invalid secret", []) :=
  C6_wrong_secret_rejected_no_insert "zz" ⟨"e", "a", "t", 1, "n", "b", [], none, []⟩ []
    (by decide) (by decide)

/-- C9: the repository name is a pure deterministic function of the task
name and nonce; it is the task name, a dash, and the first 8 characters
of the separator-stripped nonce; and two nonces whose stripped forms
differ at any position below 8 yield different names for the same task. -/
theorem C9_repo_name_derivation :
    (∀ t₁ n₁ t₂ n₂ : String, t₁ = t₂ → n₁ = n₂ → deriveRepoName t₁ n₁ = deriveRepoName t₂ n₂)
    ∧ (∀ t n : String, deriveRepoName t n = t ++ "-" ++ String.mk ((strippedNonce n).take 8))
    ∧ (∀ (t n₁ n₂ : String) (i : ℕ) (c : Char), i < 8 →
        (strippedNonce n₁).getD i c ≠ (strippedNonce n₂).getD i c →
        deriveRepoName t n₁ ≠ deriveRepoName t n₂) := by
  refine ⟨?_, ?_, ?_⟩
  · intro t₁ n₁ t₂ n₂ ht hn
    rw [ht, hn]
  · intro t n
    rfl
  · intro t n₁ n₂ i c hi hne heq
    apply hne
    have hdata := congrArg String.data heq
    simp only [deriveRepoName, String.data_append] at hdata
    have hshort : short8 n₁ = short8 n₂ := List.append_cancel_left hdata
    have h₁ : (short8 n₁).getD i c = (strippedNonce n₁).getD i c := by
      simp [short8, List.getD_eq_getElem?_getD, List.getElem?_take, hi]
    have h₂ : (short8 n₂).getD i c = (strippedNonce n₂).getD i c := by
      simp [short8, List.getD_eq_getElem?_getD, List.getElem?_take, hi]
    rw [← h₁, ← h₂, hshort]

/-- Witness for C9 at concrete nonces differing in the first stripped
character. -/
theorem C9_repo_name_derivation_witness :
    deriveRepoName "sum" "abcd-1234-xxxx" = deriveRepoName "sum" "abcd-1234-xxxx"
    ∧ deriveRepoName "sum" "abcd-1234-xxxx" =
        "sum" ++ "-" ++ String.mk ((strippedNonce "abcd-1234-xxxx").take 8)
    ∧ deriveRepoName "sum" "abcd-1234-xxxx" ≠ deriveRepoName "sum" "Xbcd-1234-xxxx" :=
  ⟨C9_repo_name_derivation.1 "sum" "abcd-1234-xxxx" "sum" "abcd-1234-xxxx" rfl rfl,
   C9_repo_name_derivation.2.1 "sum" "abcd-1234-xxxx",
   C9_repo_name_derivation.2.2 "sum" "abcd-1234-xxxx" "Xbcd-1234-xxxx" 0 ' '
     (by decide) (by decide)⟩

/-- A failed attempt (non-200 response or caught exception) adds one
attempt, sleeps the current delay, and continues the loop. -/
theorem callbackLoop_fail_step (target : Nat → PostOutcome) (payload : Payload)
    (n d : Nat) (ds : List Nat) (h : isOk200 (target n) = false) :
    (callbackLoop target payload n (d :: ds)).1 = (callbackLoop target payload (n + 1) ds).1 + 1
    ∧ (callbackLoop target payload n (d :: ds)).2.1 =
        d :: (callbackLoop target payload (n + 1) ds).2.1 := by
  cases ht : target n with
  | ok s =>
    have hs : (s == 200) = false := by simpa [isOk200, ht] using h
    simp [callbackLoop, ht, hs]
  | exc m =>
    simp [callbackLoop, ht]

/-- A 200 response stops the loop after the current attempt, with no
further sleep. -/
theorem callbackLoop_success (target : Nat → PostOutcome) (payload : Payload)
    (n d : Nat) (ds : List Nat) (h : target n = .ok 200) :
    callbackLoop target payload n (d :: ds) = (1, [], [payload]) := by
  simp [callbackLoop, h]

/-- Three failures followed by a 200: four attempts, sleeps 1, 2, 4. -/
theorem callbackLoop_three_fail_then_ok (target : Nat → PostOutcome) (payload : Payload)
    (h0 : isOk200 (target 0) = false) (h1 : isOk200 (target 1) = false)
    (h2 : isOk200 (target 2) = false) (h3 : target 3 = .ok 200) :
    (callbackLoop target payload 0 [1, 2, 4, 8]).1 = 4
    ∧ (callbackLoop target payload 0 [1, 2, 4, 8]).2.1 = [1, 2, 4] := by
  have e0 := callbackLoop_fail_step target payload 0 1 [2, 4, 8] h0
  have e1 := callbackLoop_fail_step target payload 1 2 [4, 8] h1
  have e2 := callbackLoop_fail_step target payload 2 4 [8] h2
  have e3 := callbackLoop_success target payload 3 8 [] h3
  constructor
  · rw [e0.1, e1.1, e2.1, e3]
  · rw [e0.2, e1.2, e2.2, e3]

/-- Failures on every attempt: four attempts, sleeps 1, 2, 4, 8. -/
theorem callbackLoop_all_fail (target : Nat → PostOutcome) (payload : Payload)
    (h : ∀ i, isOk200 (target i) = false) :
    (callbackLoop target payload 0 [1, 2, 4, 8]).1 = 4
    ∧ (callbackLoop target payload 0 [1, 2, 4, 8]).2.1 = [1, 2, 4, 8] := by
  have e0 := callbackLoop_fail_step target payload 0 1 [2, 4, 8] (h 0)
  have e1 := callbackLoop_fail_step target payload 1 2 [4, 8] (h 1)
  have e2 := callbackLoop_fail_step target payload 2 4 [8] (h 2)
  have e3 := callbackLoop_fail_step target payload 3 8 [] (h 3)
  constructor
  · rw [e0.1, e1.1, e2.1, e3.1]
    rfl
  · rw [e0.2, e1.2, e2.2, e3.2]
    rfl

/-- C8: against a target that fails (non-200 or exception) on the first
3 attempts and returns 200 on the 4th, the notifier makes exactly 4
attempts with delays 1s, 2s, 4s between them, then stops; against a
target that fails every attempt, it makes exactly 4 attempts with
delays 1s, 2s, 4s, 8s, and — because every attempt outcome, including a
raised exception, is consumed inside the loop — it returns normally, so
no exception escapes to the caller. -/
theorem C8_callback_retry_schedule :
    (∀ (target : Nat → PostOutcome) (data : TaskData) (r c p : Option String) (u : String),
       data.evaluation_url = some u →
       isOk200 (target 0) = false → isOk200 (target 1) = false →
       isOk200 (target 2) = false → target 3 = .ok 200 →
       (post_to_evaluation_url target data r c p).1 = 4
       ∧ (post_to_evaluation_url target data r c p).2.1 = [1, 2, 4])
    ∧ (∀ (target : Nat → PostOutcome) (data : TaskData) (r c p : Option String) (u : String),
       data.evaluation_url = some u →
       (∀ i, isOk200 (target i) = false) →
       (post_to_evaluation_url target data r c p).1 = 4
       ∧ (post_to_evaluation_url target data r c p).2.1 = [1, 2, 4, 8]) := by
  constructor
  · intro target data r c p u hu h0 h1 h2 h3
    simp only [post_to_evaluation_url, hu]
    exact callbackLoop_three_fail_then_ok target _ h0 h1 h2 h3
  · intro target data r c p u hu hall
    simp only [post_to_evaluation_url, hu]
    exact callbackLoop_all_fail target _ hall

/-- Witness for C8 with a concrete fail-three-then-succeed target and a
concrete always-failing (exception-raising) target. -/
theorem C8_callback_retry_schedule_witness :
    ((post_to_evaluation_url (fun i => if i < 3 then .exc "conn refused" else .ok 200)
        ⟨"e", "s", "t", 1, "n", "b", [], some "http://cb", []⟩ none none none).1 = 4
     ∧ (post_to_evaluation_url (fun i => if i < 3 then .exc "conn refused" else .ok 200)
        ⟨"e", "s", "t", 1, "n", "b", [], some "http://cb", []⟩ none none none).2.1 = [1, 2, 4])
    ∧ ((post_to_evaluation_url (fun _ => .exc "conn refused")
        ⟨"e", "s", "t", 1, "n", "b", [], some "http://cb", []⟩ none none none).1 = 4
     ∧ (post_to_evaluation_url (fun _ => .exc "conn refused")
        ⟨"e", "s", "t", 1, "n", "b", [], some "http://cb", []⟩ none none none).2.1 =
          [1, 2, 4, 8]) :=
  ⟨C8_callback_retry_schedule.1 (fun i => if i < 3 then .exc "conn refused" else .ok 200)
     ⟨"e", "s", "t", 1, "n", "b", [], some "http://cb", []⟩ none none none "http://cb"
     rfl (by decide) (by decide) (by decide) (by decide),
   C8_callback_retry_schedule.2 (fun _ => .exc "conn refused")
     ⟨"e", "s", "t", 1, "n", "b", [], some "http://cb", []⟩ none none none "http://cb"
     rfl (fun i => rfl)⟩

/-- Splitting never yields the empty list of parts. -/
theorem splitSep_ne_nil (sep : Char) (l : List Char) : splitSep sep l ≠ [] := by
  induction l with
  | nil => simp [splitSep]
  | cons c cs ih =>
    cases h : splitSep sep cs with
    | nil => exact absurd h ih
    | cons r rs =>
      by_cases hc : (c == sep) = true <;> simp [splitSep, h, hc]

/-- A separator-free list splits into itself alone. -/
theorem splitSep_of_not_mem (sep : Char) (l : List Char) (h : sep ∉ l) :
    splitSep sep l = [l] := by
  induction l with
  | nil => rfl
  | cons c cs ih =>
    have hc : (c == sep) = false := by
      simp only [List.mem_cons, not_or] at h
      simpa [beq_eq_false_iff_ne] using fun hcc => h.1 hcc.symm
    have hcs := ih (fun hm => h (List.mem_cons_of_mem c hm))
    simp [splitSep, hcs, hc]

/-- Splitting a list that starts with a separator-free part followed by
the separator peels off that part. -/
theorem splitSep_append (sep : Char) (p rest : List Char) (hp : sep ∉ p) :
    splitSep sep (p ++ sep :: rest) = p :: splitSep sep rest := by
  induction p with
  | nil =>
    cases h : splitSep sep rest with
    | nil => exact absurd h (splitSep_ne_nil sep rest)
    | cons r rs => simp [splitSep, h]
  | cons c p ih =>
    have hc : (c == sep) = false := by
      simp only [List.mem_cons, not_or] at hp
      simpa [beq_eq_false_iff_ne] using fun hcc => hp.1 hcc.symm
    have hrec := ih (fun hm => hp (List.mem_cons_of_mem c hm))
    simp [splitSep, hrec, hc]

/-- Splitting inverts joining for a non-empty list of separator-free
parts. -/
theorem splitSep_joinSep (sep : Char) (parts : List (List Char)) (hne : parts ≠ [])
    (hfree : ∀ p ∈ parts, sep ∉ p) :
    splitSep sep (joinSep sep parts) = parts := by
  induction parts with
  | nil => exact absurd rfl hne
  | cons p ps ih =>
    cases ps with
    | nil =>
      simp [joinSep, splitSep_of_not_mem sep p (hfree p (by simp))]
    | cons q qs =>
      have hjoin : joinSep sep (p :: q :: qs) = p ++ sep :: joinSep sep (q :: qs) := rfl
      rw [hjoin, splitSep_append sep p _ (hfree p (by simp)),
        ih (by simp) (fun r hr => hfree r (List.mem_cons_of_mem p hr))]

/-- The literal texts around the attachment name contain no newline, in
every classification branch. -/
theorem lineParts_no_newline (a : Attachment) :
    '\n' ∉ (lineParts a).1 ∧ '\n' ∉ (lineParts a).2 := by
  simp only [lineParts]
  split_ifs <;> exact ⟨by decide, by decide⟩

/-- A summary line contains no newline when the attachment name has
none. -/
theorem attachmentLine_no_newline (a : Attachment) (h : '\n' ∉ (nameOf a).data) :
    '\n' ∉ attachmentLine a := by
  unfold attachmentLine
  intro hmem
  rcases List.mem_append.1 hmem with h1 | h2
  · rcases List.mem_append.1 h1 with h3 | h4
    · exact (lineParts_no_newline a).1 h3
    · exact h h4
  · exact (lineParts_no_newline a).2 h2

/-- C7: `summarize_attachments` maps the empty list to a fixed
"no attachments" sentence; for every non-empty list (of descriptors
whose names are newline-free, so that lines are well-defined) the
output splits on newlines into exactly one line per input item, in
input order; the embedding is a total pure function by construction. -/
theorem C7_summarize_attachments_lines :
    (summarize_attachments [] = "No attachments were provided.")
    ∧ (∀ as : List Attachment, as ≠ [] → (∀ a ∈ as, '\n' ∉ (nameOf a).data) →
        splitSep '\n' (summarize_attachments as).data = as.map attachmentLine
        ∧ (splitSep '\n' (summarize_attachments as).data).length = as.length) := by
  constructor
  · rfl
  · intro as hne hfree
    have hempty : as.isEmpty = false := by
      simpa [List.isEmpty_iff] using hne
    have hdata : (summarize_attachments as).data = joinSep '\n' (as.map attachmentLine) := by
      simp [summarize_attachments, hempty]
    have hsplit : splitSep '\n' (summarize_attachments as).data = as.map attachmentLine := by
      rw [hdata]
      exact splitSep_joinSep '\n' (as.map attachmentLine)
        (by simpa [List.map_eq_nil_iff] using hne)
        (by
          intro p hp
          rcases List.mem_map.1 hp with ⟨a, ha, rfl⟩
          exact attachmentLine_no_newline a (hfree a ha))
    exact ⟨hsplit, by rw [hsplit, List.length_map]⟩

/-- Witness for C7 on a concrete single-attachment list. -/
theorem C7_summarize_attachments_lines_witness :
    summarize_attachments [] = "No attachments were provided."
    ∧ (splitSep '\n' (summarize_attachments [⟨some "image", some "pic"⟩]).data =
        [⟨some "image", some "pic"⟩].map attachmentLine
       ∧ (splitSep '\n' (summarize_attachments [⟨some "image", some "pic"⟩]).data).length =
          [(⟨some "image", some "pic"⟩ : Attachment)].length) :=
  ⟨C7_summarize_attachments_lines.1,
   C7_summarize_attachments_lines.2 [⟨some "image", some "pic"⟩]
     (by decide) (by decide)⟩

/-- Dropping while a predicate holds is the identity when the head
fails the predicate (or the list is empty). -/
theorem dropWhile_eq_self_of_head (p : Char → Bool) (m : List Char)
    (hm : ∀ c, m.head? = some c → p c = false) : List.dropWhile p m = m := by
  cases m with
  | nil => rfl
  | cons x xs =>
    rw [List.dropWhile_cons, hm x rfl]
    simp

/-- Python `strip()` is the identity on a list whose first and last
characters are not whitespace. -/
theorem pyStrip_eq_self (l : List Char)
    (h1 : ∀ c, l.head? = some c → isPyWs c = false)
    (h2 : ∀ c, l.getLast? = some c → isPyWs c = false) : pyStrip l = l := by
  unfold pyStrip stripBoth
  rw [dropWhile_eq_self_of_head _ _ h1,
    dropWhile_eq_self_of_head _ _ (fun c hc => h2 c (by rwa [List.head?_reverse] at hc)),
    List.reverse_reverse]

/-- Python `strip()` ignores a leading whitespace character. -/
theorem pyStrip_cons_ws (c : Char) (l : List Char) (h : isPyWs c = true) :
    pyStrip (c :: l) = pyStrip l := by
  simp [pyStrip, stripBoth, List.dropWhile_cons, h]

/-- Python `strip()` ignores a trailing whitespace character. -/
theorem pyStrip_append_ws (l : List Char) (c : Char) (h : isPyWs c = true) :
    pyStrip (l ++ [c]) = pyStrip l := by
  unfold pyStrip stripBoth
  rw [List.dropWhile_append]
  by_cases he : (List.dropWhile isPyWs l).isEmpty = true
  · have hemp : List.dropWhile isPyWs l = [] := List.isEmpty_iff.mp he
    simp [he, hemp, List.dropWhile_cons, h]
  · rw [if_neg he, List.reverse_append]
    simp only [List.reverse_cons, List.reverse_nil, List.nil_append, List.singleton_append,
      List.dropWhile_cons, h, if_true]

/-- Python `strip()` of a newline-wrapped list strips down to the
stripped body. -/
theorem pyStrip_wrap_nl (body : List Char) :
    pyStrip ('\n' :: (body ++ ['\n'])) = pyStrip body := by
  rw [pyStrip_cons_ws '\n' _ (by decide), pyStrip_append_ws body '\n' (by decide)]

/-- Zeta-reduced unfolding of the sanitizer. -/
theorem sanitizeL_def (raw : List Char) :
    sanitizeL raw =
      if startsWithL "```".data (pyStrip raw) then
        pyStrip (replaceFirstL "html".data [] (stripBoth (fun c => c == bq) (pyStrip raw)))
      else pyStrip raw := rfl

/-- C4 counterexample: the claim says a fence marker followed by any
language tag is stripped, but the code only deletes the first
occurrence of the substring `html`; a `js` language tag survives
sanitization. -/
theorem C4_counterexample_language_tag :
    sanitize_llm_output "```js\nalert(1)\n```" = "js\nalert(1)"
    ∧ sanitize_llm_output "```js\nalert(1)\n```" ≠ "alert(1)" := by
  constructor <;> decide

/-- C4 amended: for input that (after trimming) is a fence marker with
the `html` language tag around a newline-delimited body, sanitization
returns the trimmed body (fence and tag stripped); input that does not
begin with a fence marker is returned unchanged apart from surrounding
whitespace trimming. -/
theorem C4_sanitization_amended :
    (∀ body : List Char,
       sanitizeL ("```html\n".data ++ body ++ "\n```".data) = pyStrip body)
    ∧ (∀ s : String, startsWithL "```".data (pyStrip s.data) = false →
       sanitize_llm_output s = String.mk (pyStrip s.data)) := by
  have hbq : (bq == bq) = true := by decide
  have hh : (('h' : Char) == bq) = false := by decide
  have hnl : (('\n' : Char) == bq) = false := by decide
  constructor
  · intro body
    have hfd : "```html\n".data = bq :: bq :: bq :: 'h' :: 't' :: 'm' :: 'l' :: '\n' :: [] := by
      decide
    have htl : "\n```".data = '\n' :: bq :: bq :: bq :: [] := by decide
    rw [hfd, htl]
    simp only [List.cons_append, List.nil_append, List.append_assoc]
    have hshape :
        (bq :: bq :: bq :: 'h' :: 't' :: 'm' :: 'l' :: '\n' ::
            (body ++ '\n' :: bq :: bq :: bq :: [])) =
          ((bq :: bq :: bq :: 'h' :: 't' :: 'm' :: 'l' :: '\n' :: body) ++
            ('\n' :: bq :: bq :: bq :: [])) := by
      simp
    have hA : pyStrip (bq :: bq :: bq :: 'h' :: 't' :: 'm' :: 'l' :: '\n' ::
        (body ++ '\n' :: bq :: bq :: bq :: [])) =
        bq :: bq :: bq :: 'h' :: 't' :: 'm' :: 'l' :: '\n' ::
          (body ++ '\n' :: bq :: bq :: bq :: []) := by
      apply pyStrip_eq_self
      · intro c hc
        simp only [List.head?_cons, Option.some.injEq] at hc
        subst hc
        decide
      · intro c hc
        rw [hshape, List.getLast?_append] at hc
        simp only [Option.or] at hc
        have : c = bq := by
          have hgl : ('\n' :: bq :: bq :: bq :: ([] : List Char)).getLast? = some bq := rfl
          rw [hgl] at hc
          exact (Option.some.injEq _ _ ▸ hc.symm)
        subst this
        decide
    have hsw : startsWithL "```".data
        (bq :: bq :: bq :: 'h' :: 't' :: 'm' :: 'l' :: '\n' ::
          (body ++ '\n' :: bq :: bq :: bq :: [])) = true := by
      have h3 : "```".data = [bq, bq, bq] := by decide
      rw [h3]
      simp [startsWithL, hbq]
    have hC : stripBoth (fun c => c == bq)
        (bq :: bq :: bq :: 'h' :: 't' :: 'm' :: 'l' :: '\n' ::
          (body ++ '\n' :: bq :: bq :: bq :: [])) =
        'h' :: 't' :: 'm' :: 'l' :: '\n' :: (body ++ ['\n']) := by
      simp [stripBoth, List.dropWhile_cons, hbq, hh, hnl, List.reverse_append,
        List.dropWhile_append]
    have hD : replaceFirstL "html".data []
        ('h' :: 't' :: 'm' :: 'l' :: '\n' :: (body ++ ['\n'])) =
        '\n' :: (body ++ ['\n']) := by
      have hhtml : "html".data = ['h', 't', 'm', 'l'] := by decide
      rw [hhtml]
      simp [replaceFirstL, startsWithL]
    rw [sanitizeL_def, hA, hsw]
    simp only [if_true]
    rw [hC, hD, pyStrip_wrap_nl]
  · intro s hs
    unfold sanitize_llm_output
    rw [sanitizeL_def, hs]
    simp

/-- Witness for C4 amended at a concrete body and a concrete unfenced
input. -/
theorem C4_sanitization_amended_witness :
    sanitizeL ("```html\n".data ++ "x".data ++ "\n```".data) = pyStrip "x".data
    ∧ (startsWithL "```".data (pyStrip "plain".data) = false
       ∧ sanitize_llm_output "plain" = String.mk (pyStrip "plain".data)) :=
  ⟨C4_sanitization_amended.1 "x".data,
   by decide,
   C4_sanitization_amended.2 "plain" (by decide)⟩

/-- C3 counterexample: the claim says empty LLM content must fail with
a Generation error, but `generate_files_from_brief` performs no
emptiness check: on empty content it succeeds and returns a file set
whose `index.html` is the empty string. -/
theorem C3_counterexample_empty_content :
    (generate_files_from_brief true (Except.ok "") "b" []).isOk = true
    ∧ lookupFile "index.html"
        ((generate_files_from_brief true (Except.ok "") "b" []).toOption.getD []) =
      some "" := by
  constructor <;> decide

/-- C3 amended: when the LLM capability raises, the error propagates out
of `generate_files_from_brief` (there is no handler in it), and the
caller records a `failed:` status and creates no repository; when the
capability returns empty content, generation does not fail — it
succeeds with an empty `index.html`.  (In this code the caller in fact
never reaches publishing for any outcome, because its call to the
generator raises `TypeError`; the no-publish conclusion is stated for
every environment.) -/
theorem C3_generation_error_handling :
    (∀ (e brief : String) (atts : List Attachment),
       generate_files_from_brief true (Except.error e) brief atts = Except.error e)
    ∧ (∀ (brief : String) (atts : List Attachment),
       (generate_files_from_brief true (Except.ok "") brief atts).isOk = true
       ∧ lookupFile "index.html"
           ((generate_files_from_brief true (Except.ok "") brief atts).toOption.getD []) =
         some "")
    ∧ (∀ (env : Env) (data : TaskData),
       (process_task env data).repoPushed = none
       ∧ startsWithL "failed:".data (process_task env data).statusWritten.data = true) := by
  exact ⟨fun e brief atts => rfl,
    fun brief atts => ⟨rfl, rfl⟩,
    fun env data => ⟨rfl, rfl⟩⟩

/-- C2: the spec claims a repository-creation failure (other than
name-exists) or a push failure aborts the publish as a RepositoryError,
the task is recorded `failed:`, and no callback or completion happens.
In the code, `create_and_push_repo` returns the `(None, None, None)`
sentinel instead of raising in both cases, so `process_task`'s tail
still POSTs the callback — carrying the partial all-`None` publish
result — and marks the task `completed:`. -/
theorem C2_failed_publish_marked_completed :
    ∀ (env : Env) (data : TaskData) (files : List (String × String)) (msg u : String),
      env.gh.tokenPresent = true → data.evaluation_url = some u →
      env.gh.target = (fun _ => PostOutcome.ok 200) →
      ((env.gh.createRepo = .otherError msg →
         publish_and_notify env data files =
           ⟨"completed: " ++ data.task ++ " round " ++ toString data.round, data.nonce, none,
            [⟨data.email, data.task, data.round, data.nonce, none, none, none⟩]⟩)
       ∧ (env.gh.createRepo = .created → env.gh.gitOk = false →
         publish_and_notify env data files =
           ⟨"completed: " ++ data.task ++ " round " ++ toString data.round, data.nonce, none,
            [⟨data.email, data.task, data.round, data.nonce, none, none, none⟩]⟩)) := by
  intro env data files msg u htok hu htgt
  constructor
  · intro hcr
    simp [publish_and_notify, create_and_push_repo, htok, hcr, post_to_evaluation_url, hu,
      htgt, callbackLoop]
  · intro hcr hgit
    simp [publish_and_notify, create_and_push_repo, htok, hcr, hgit, post_to_evaluation_url,
      hu, htgt, callbackLoop]

/-- Witness for C2: a creation-failure environment and a push-failure
environment, both with a callback target answering 200. -/
theorem C2_failed_publish_marked_completed_witness :
    publish_and_notify
        ⟨true, Except.ok "", ⟨true, "octo", .otherError "403 rate limited", true, "sha",
          fun _ => PostOutcome.ok 200⟩⟩
        ⟨"e", "s", "t", 1, "n", "b", [], some "http://cb", []⟩ [] =
      ⟨"completed: t round 1", "n", none, [⟨"e", "t", 1, "n", none, none, none⟩]⟩
    ∧ publish_and_notify
        ⟨true, Except.ok "", ⟨true, "octo", .created, false, "sha",
          fun _ => PostOutcome.ok 200⟩⟩
        ⟨"e", "s", "t", 1, "n", "b", [], some "http://cb", []⟩ [] =
      ⟨"completed: t round 1", "n", none, [⟨"e", "t", 1, "n", none, none, none⟩]⟩ :=
  ⟨(C2_failed_publish_marked_completed
      ⟨true, Except.ok "", ⟨true, "octo", .otherError "403 rate limited", true, "sha",
        fun _ => PostOutcome.ok 200⟩⟩
      ⟨"e", "s", "t", 1, "n", "b", [], some "http://cb", []⟩ [] "403 rate limited" "http://cb"
      rfl rfl rfl).1 rfl,
   (C2_failed_publish_marked_completed
      ⟨true, Except.ok "", ⟨true, "octo", .created, false, "sha",
        fun _ => PostOutcome.ok 200⟩⟩
      ⟨"e", "s", "t", 1, "n", "b", [], some "http://cb", []⟩ [] "unused" "http://cb"
      rfl rfl rfl).2 rfl rfl⟩

/-- C10: on a successful publish with a callback URL supplied and a
target answering 200, the payload is delivered twice — once by the
retry loop inside `create_and_push_repo` and once by
`post_to_evaluation_url` invoked afterward — and the two deliveries
carry the same payload; the task is then marked completed. -/
theorem C10_double_callback_delivery :
    ∀ (env : Env) (data : TaskData) (files : List (String × String)) (u : String),
      env.gh.tokenPresent = true → env.gh.createRepo = .created → env.gh.gitOk = true →
      data.evaluation_url = some u → env.gh.target = (fun _ => PostOutcome.ok 200) →
      2 ≤ (publish_and_notify env data files).posts.length
      ∧ (publish_and_notify env data files).posts.getD 0 ⟨"", "", 0, "", none, none, none⟩
        = (publish_and_notify env data files).posts.getD 1 ⟨"", "", 0, "", none, none, none⟩
      ∧ (publish_and_notify env data files).statusWritten =
          "completed: " ++ data.task ++ " round " ++ toString data.round := by
  intro env data files u htok hcr hgit hu htgt
  refine ⟨?_, ?_, ?_⟩ <;>
    simp [publish_and_notify, create_and_push_repo, htok, hcr, hgit, hu, htgt,
      post_to_evaluation_url, callbackLoop]

/-- Witness for C10 on a concrete all-success environment. -/
theorem C10_double_callback_delivery_witness :
    2 ≤ (publish_and_notify
        ⟨true, Except.ok "", ⟨true, "octo", .created, true, "sha", fun _ => PostOutcome.ok 200⟩⟩
        ⟨"e", "s", "t", 1, "n", "b", [], some "http://cb", []⟩
        [("index.html", "x")]).posts.length
    ∧ (publish_and_notify
        ⟨true, Except.ok "", ⟨true, "octo", .created, true, "sha", fun _ => PostOutcome.ok 200⟩⟩
        ⟨"e", "s", "t", 1, "n", "b", [], some "http://cb", []⟩
        [("index.html", "x")]).posts.getD 0 ⟨"", "", 0, "", none, none, none⟩
      = (publish_and_notify
        ⟨true, Except.ok "", ⟨true, "octo", .created, true, "sha", fun _ => PostOutcome.ok 200⟩⟩
        ⟨"e", "s", "t", 1, "n", "b", [], some "http://cb", []⟩
        [("index.html", "x")]).posts.getD 1 ⟨"", "", 0, "", none, none, none⟩
    ∧ (publish_and_notify
        ⟨true, Except.ok "", ⟨true, "octo", .created, true, "sha", fun _ => PostOutcome.ok 200⟩⟩
        ⟨"e", "s", "t", 1, "n", "b", [], some "http://cb", []⟩
        [("index.html", "x")]).statusWritten = "completed: " ++ "t" ++ " round " ++ toString (1 : Int) :=
  C10_double_callback_delivery
    ⟨true, Except.ok "", ⟨true, "octo", .created, true, "sha", fun _ => PostOutcome.ok 200⟩⟩
    ⟨"e", "s", "t", 1, "n", "b", [], some "http://cb", []⟩
    [("index.html", "x")] "http://cb" rfl rfl rfl rfl rfl

end LlmDeploy
